import Mathlib

/-!
Shallow embedding of the minrss feed-ingestion core (src/feeds): the entity
model of models.py, the ingestion functions of feed_utils.py, the URL field
validator of serializers.py, and the create/refresh orchestration of
views.py.  External collaborators (feedparser, urllib.parse, the clock) are
modeled as an explicit environment of deterministic functions; the store is
an explicit world record threaded through every operation.
-/

namespace Minrss

/-- Result of urllib.parse.urlparse, restricted to the two components that
validate_feed_url inspects. -/
structure UrlParts where
  scheme : String
  netloc : String
deriving DecidableEq

/-- One raw feedparser entry.  A field is `some v` when the corresponding
attribute or key is present on the entry (hasattr succeeds, .get finds the
key) and `none` otherwise; `content` models the structured content list as
the list of its elements .value strings. -/
structure RawEntry where
  id : Option String := none
  guid : Option String := none
  link : Option String := none
  title : Option String := none
  summary : Option String := none
  description : Option String := none
  content : Option (List String) := none
  published : Option String := none
  updated : Option String := none
deriving DecidableEq

/-- Result object of feedparser.parse: the bozo flag with its exception
text, the two title locations probed by extract_feed_title (result.title
and result.feed.title), and the entry list in source order. -/
structure ParsedDoc where
  bozo : Bool
  bozoException : String := ""
  topTitle : Option String := none
  feedTitle : Option String := none
  entries : List RawEntry := []
deriving DecidableEq

/-- Outcome of calling feedparser.parse on a URL: either a parse result, or
one of the exception classes the source catches (HTTP error, redirect
error, or any other exception). -/
inductive FetchOutcome where
  | ok (doc : ParsedDoc)
  | httpError (msg : String)
  | redirectError (msg : String)
  | otherError (msg : String)
deriving DecidableEq

/-- Deterministic environment for the external collaborators: the
network-and-parse behavior of feedparser.parse per URL, the date parser
feedparser._parse_date (`none` both for unparseable input and for a raising
call), the clock timezone.now, and urllib.parse.urlparse.  Timestamps are
abstracted as naturals; timezone.make_aware is the identity on them. -/
structure Env where
  fetch : String → FetchOutcome
  parseDate : String → Option Nat
  now : Nat
  urlparse : String → UrlParts

/-- A persisted Feed row (models.py, class Feed). -/
structure FeedRec where
  id : Nat
  url : String
  title : Option String := none
  lastFetched : Option Nat := none
deriving DecidableEq

/-- A persisted FeedItem row (models.py, class FeedItem).  The published_at
column is NOT NULL, so a stored row always carries a timestamp. -/
structure ItemRec where
  feedId : Nat
  title : String
  content : String
  publishedAt : Nat
  guid : String
  isRead : Bool := false
deriving DecidableEq

/-- The persisted state: the Feed table and the FeedItem table. -/
structure World where
  feeds : List FeedRec := []
  items : List ItemRec := []
deriving DecidableEq

/-- One staged item dictionary as built inside fetch_feed_content (lines
147-152): title, content, published_at (possibly None), guid. -/
structure StagedItem where
  title : String
  content : String
  publishedAt : Option Nat
  guid : String
deriving DecidableEq

/-- feed_obj.save(): writes the in-memory Feed instance back to its row. -/
def saveFeed (f : FeedRec) (w : World) : World :=
  { w with feeds := w.feeds.map (fun g => if g.id = f.id then f else g) }

/-- FeedItem.objects.filter(feed=feed_obj, guid=guid).exists() (line 138). -/
def feedItemExists (w : World) (fid : Nat) (g : String) : Bool :=
  w.items.any (fun r => r.feedId == fid && r.guid == g)

/-- Python truthiness of an optional string field such as feed_obj.title:
falsy exactly when it is None or the empty string. -/
def pyStrFalsy (t : Option String) : Bool :=
  match t with
  | none => true
  | some s => s == ""

/-- VALID_SCHEMES = {http, https} (feed_utils.py line 19). -/
def VALID_SCHEMES : List String := ["http", "https"]

/-- MAX_REDIRECTS default (feed_utils.py line 18). -/
def MAX_REDIRECTS : Nat := 5

/-- validate_feed_url (feed_utils.py lines 22-62).  The source performs no
ORM operation, so the world passes through every branch unchanged. -/
def validate_feed_url (env : Env) (url : String) (w : World) :
    (Bool × Option String) × World :=
  let parsed := env.urlparse url
  if parsed.scheme == "" || !(VALID_SCHEMES.contains parsed.scheme) then
    ((false, some "URL must start with http:// or https://"), w)
  else if parsed.netloc == "" then
    ((false, some "Invalid URL format"), w)
  else
    match env.fetch url with
    | FetchOutcome.ok feed =>
      if feed.bozo then
        ((false, some ("Feed parsing error: " ++ feed.bozoException)), w)
      else if feed.entries.isEmpty then
        ((false, some "Feed contains no entries"), w)
      else
        ((true, none), w)
    | FetchOutcome.httpError m => ((false, some ("HTTP error: " ++ m)), w)
    | FetchOutcome.redirectError _ =>
        ((false, some ("Too many redirects (max " ++ toString MAX_REDIRECTS ++ ")")), w)
    | FetchOutcome.otherError m => ((false, some ("Unexpected error: " ++ m)), w)

/-- extract_feed_title (feed_utils.py lines 65-71): result.title if that
attribute is present, else result.feed.title, else None. -/
def extract_feed_title (doc : ParsedDoc) : Option String :=
  match doc.topTitle with
  | some t => some t
  | none => doc.feedTitle

/-- extract_entry_guid (feed_utils.py lines 74-81): entry.id if present,
else entry.guid, else entry.get(link, empty-string default). -/
def extract_entry_guid (e : RawEntry) : String :=
  match e.id with
  | some i => i
  | none =>
    match e.guid with
    | some g => g
    | none => e.link.getD ""

/-- parse_date (feed_utils.py lines 84-98).  `if not date_str` is true for
None and for the empty string and returns None; a successful
feedparser._parse_date is made aware and returned; an unparseable (or
raising) parse falls through to timezone.now(). -/
def parse_date (env : Env) (date_str : Option String) : Option Nat :=
  match date_str with
  | none => none
  | some s =>
    if s == "" then none
    else
      match env.parseDate s with
      | some d => some d
      | none => some env.now

/-- The date argument built at feed_utils.py line 150:
entry.get(published, entry.get(updated)) — the updated field is consulted
only when the published key is absent. -/
def entryDateField (e : RawEntry) : Option String :=
  match e.published with
  | some s => some s
  | none => e.updated

/-- The published_at value staged for one entry (feed_utils.py line 150). -/
def entry_published_at (env : Env) (e : RawEntry) : Option Nat :=
  parse_date env (entryDateField e)

/-- The entry carries a nonempty date string in the field consulted at
line 150 (published, else updated); for such entries parse_date always
returns a timestamp (parsed or the current time). -/
def hasDateStr (e : RawEntry) : Bool :=
  match entryDateField e with
  | some s => !(s == "")
  | none => false

/-- The content extraction of feed_utils.py lines 142-144:
content = entry.get(summary, entry.get(description, empty)); only if that
is falsy and the entry has a structured content attribute is the first
content elements .value used (or empty when the list is empty). -/
def extract_content (e : RawEntry) : String :=
  let content :=
    match e.summary with
    | some s => s
    | none => e.description.getD ""
  if content == "" then
    match e.content with
    | some vs =>
      match vs with
      | [] => ""
      | v :: _ => v
    | none => content
  else content

/-- The per-entry loop of fetch_feed_content (feed_utils.py lines 128-157):
skip entries whose guid is falsy, skip entries already persisted for this
feed, and stage the rest in source order.  The item table is constant
during the loop (the only prior write was the title save). -/
def stageEntries (env : Env) (feed_obj : FeedRec) (w : World) :
    List RawEntry → List StagedItem
  | [] => []
  | e :: rest =>
    let guid := extract_entry_guid e
    if guid == "" then stageEntries env feed_obj w rest
    else if feedItemExists w feed_obj.id guid then stageEntries env feed_obj w rest
    else
      { title := e.title.getD "Untitled"
        content := extract_content e
        publishedAt := entry_published_at env e
        guid := guid } :: stageEntries env feed_obj w rest

/-- The title update of fetch_feed_content (feed_utils.py lines 120-125):
when the stored title is falsy and the parse yields a truthy title, set it
and save the feed. -/
def updateFeedTitle (doc : ParsedDoc) (feed_obj : FeedRec) (w : World) :
    FeedRec × World :=
  if pyStrFalsy feed_obj.title then
    match extract_feed_title doc with
    | some t =>
      if t == "" then (feed_obj, w)
      else
        let f := { feed_obj with title := some t }
        (f, saveFeed f w)
    | none => (feed_obj, w)
  else (feed_obj, w)

/-- fetch_feed_content (feed_utils.py lines 101-175) on a genuine Feed
instance: parse the URL, reject a bozo parse, fill in a missing feed title,
stage the new entries, and report an error when the staged list is empty
(line 160: No new items found in feed). -/
def fetch_feed_content (env : Env) (feed_obj : FeedRec) (w : World) :
    (List StagedItem × Option String) × FeedRec × World :=
  match env.fetch feed_obj.url with
  | FetchOutcome.ok feed =>
    if feed.bozo then
      (([], some ("Feed parsing error: " ++ feed.bozoException)), feed_obj, w)
    else
      let fw := updateFeedTitle feed feed_obj w
      match stageEntries env fw.1 fw.2 feed.entries with
      | [] => (([], some "No new items found in feed"), fw.1, fw.2)
      | it :: its => ((it :: its, none), fw.1, fw.2)
  | FetchOutcome.httpError m =>
      (([], some ("HTTP error while fetching feed: " ++ m)), feed_obj, w)
  | FetchOutcome.redirectError m =>
      (([], some ("Too many redirects: " ++ m)), feed_obj, w)
  | FetchOutcome.otherError m =>
      (([], some ("Unexpected error while fetching feed: " ++ m)), feed_obj, w)

/-- FeedItem.objects.create under the store constraints declared in
models.py: unique_together [feed, guid] (line 40) and the non-nullable
published_at column (line 29).  A violating insert raises an
IntegrityError, surfaced here as Except.error. -/
def FeedItem_objects_create (feed_obj : FeedRec) (it : StagedItem) (w : World) :
    Except String World :=
  if feedItemExists w feed_obj.id it.guid then
    Except.error "IntegrityError: UNIQUE constraint failed: feed, guid"
  else
    match it.publishedAt with
    | none => Except.error "IntegrityError: NOT NULL constraint failed: published_at"
    | some d =>
      Except.ok { w with items := w.items ++
        [{ feedId := feed_obj.id, title := it.title, content := it.content,
           publishedAt := d, guid := it.guid, isRead := false }] }

/-- create_feed_items (feed_utils.py lines 178-204): attempt each staged
item in order, count the successful creations, and swallow any per-item
exception, continuing with the rest. -/
def create_feed_items (feed_obj : FeedRec) :
    List StagedItem → World → Nat × World
  | [], w => (0, w)
  | it :: rest, w =>
    match FeedItem_objects_create feed_obj it w with
    | Except.ok w1 =>
      let nw := create_feed_items feed_obj rest w1
      (nw.1 + 1, nw.2)
    | Except.error _ => create_feed_items feed_obj rest w

/-- The sync operation: fetch_feed_content followed by create_feed_items,
exactly as FeedViewSet.refresh composes them (views.py lines 37-48): a
fetch error is reported with count 0 and nothing persisted; otherwise the
staged items are created, the feed is marked as fetched, and the created
count is returned with no error. -/
def sync (env : Env) (feed : FeedRec) (w : World) :
    (Nat × Option String) × FeedRec × World :=
  let r := fetch_feed_content env feed w
  match r.1.2 with
  | some e => ((0, some e), r.2.1, r.2.2)
  | none =>
    match r.1.1 with
    | [] => ((0, none), r.2.1, r.2.2)
    | it :: its =>
      let cw := create_feed_items r.2.1 (it :: its) r.2.2
      let f2 := { r.2.1 with lastFetched := some env.now }
      ((cw.1, none), f2, saveFeed f2 cw.2)

/-- Arity of the 2-tuple returned by validate_feed_url, as Python sees it:
the pair (is_valid, error_message) is a tuple of two elements. -/
def tuple2_arity (_p : Bool × Option String) : Nat := 2

/-- Python truthiness of that tuple: a tuple is truthy iff it is non-empty,
so the (bool, reason) pair is truthy whatever its components hold. -/
def tuple2_truthy (p : Bool × Option String) : Bool :=
  tuple2_arity p != 0

/-- FeedSerializer.validate_url (serializers.py lines 16-22): it stores the
whole tuple returned by validate_feed_url in is_valid and tests the tuple
itself for truthiness, raising ValidationError only when the tuple is
falsy. -/
def FeedSerializer_validate_url (env : Env) (value : String) (w : World) :
    Except String String :=
  let is_valid := (validate_feed_url env value w).1
  if tuple2_truthy is_valid then Except.ok value
  else Except.error "Error while validating URL"

/-- A dynamically typed Python value, for the one call site that is not
well typed: FeedViewSet.create passes feed.url (a str) where
fetch_feed_content expects a Feed instance. -/
inductive PyVal where
  | str (s : String)
  | nat (t : Nat)
  | noneV
  | list (xs : List PyVal)
  | dict (fields : List (String × PyVal))
  | feedObj (f : FeedRec)

/-- The Python type name of a value, for exception messages. -/
def pyTypeName : PyVal → String
  | PyVal.str _ => "str"
  | PyVal.nat _ => "datetime"
  | PyVal.noneV => "NoneType"
  | PyVal.list _ => "list"
  | PyVal.dict _ => "dict"
  | PyVal.feedObj _ => "Feed"

/-- Message of the AttributeError raised by evaluating value.url on a
value that is not a Feed instance. -/
def pyAttrUrlError (v : PyVal) : String :=
  pyTypeName v ++ " object has no attribute url"

/-- Subscripting value[key] with a string key: succeeds on a dict holding
the key and raises (KeyError or TypeError) otherwise. -/
def pyGetItem (v : PyVal) (k : String) : Except String PyVal :=
  match v with
  | PyVal.dict fs =>
    match fs.find? (fun p => p.1 == k) with
    | some p => Except.ok p.2
    | none => Except.error ("KeyError: " ++ k)
  | other => Except.error ("TypeError: " ++ pyTypeName other ++ " indices must be integers")

/-- The staged item dictionary as a Python value. -/
def stagedToPy (it : StagedItem) : PyVal :=
  PyVal.dict
    [("title", PyVal.str it.title),
     ("content", PyVal.str it.content),
     ("published_at",
       match it.publishedAt with
       | some d => PyVal.nat d
       | none => PyVal.noneV),
     ("guid", PyVal.str it.guid)]

/-- fetch_feed_content under Python dynamic typing, for callers that may
pass something other than a Feed instance.  The first statement of the try
block evaluates feed_obj.url (feed_utils.py line 113); on a non-Feed value
that raises AttributeError, which the final except clause (line 172) turns
into the pair ([], error-message).  A genuine Feed instance follows the
typed path of fetch_feed_content. -/
def fetch_feed_content_dyn (env : Env) (feed_obj : PyVal) (w : World) :
    (PyVal × PyVal) × World :=
  match feed_obj with
  | PyVal.feedObj f =>
    let r := fetch_feed_content env f w
    ((PyVal.list (r.1.1.map stagedToPy),
      match r.1.2 with
      | some m => PyVal.str m
      | none => PyVal.noneV), r.2.2)
  | other =>
    ((PyVal.list [],
      PyVal.str ("Unexpected error while fetching feed: " ++ pyAttrUrlError other)), w)

/-- One FeedItem.objects.create call inside the loop of create_feed_items,
under dynamic typing: the four subscripts item[title], item[content],
item[published_at], item[guid] are evaluated first (feed_utils.py lines
192-198) and any of them may raise; a well-shaped dict then goes through
the constrained store insert. -/
def pyCreateOne (feed_obj : FeedRec) (item : PyVal) (w : World) :
    Except String World := do
  let t ← pyGetItem item "title"
  let c ← pyGetItem item "content"
  let p ← pyGetItem item "published_at"
  let g ← pyGetItem item "guid"
  match t, c, p, g with
  | PyVal.str ts, PyVal.str cs, PyVal.nat ps, PyVal.str gs =>
    FeedItem_objects_create feed_obj
      { title := ts, content := cs, publishedAt := some ps, guid := gs } w
  | PyVal.str ts, PyVal.str cs, PyVal.noneV, PyVal.str gs =>
    FeedItem_objects_create feed_obj
      { title := ts, content := cs, publishedAt := none, guid := gs } w
  | _, _, _, _ => Except.error "TypeError: unexpected field types"

/-- create_feed_items (feed_utils.py lines 178-204) under dynamic typing:
iterate whatever was passed as the items argument, swallow per-item
exceptions, count the successes. -/
def create_feed_items_dyn (feed_obj : FeedRec) :
    List PyVal → World → Nat × World
  | [], w => (0, w)
  | it :: rest, w =>
    match pyCreateOne feed_obj it w with
    | Except.ok w1 =>
      let nw := create_feed_items_dyn feed_obj rest w1
      (nw.1 + 1, nw.2)
    | Except.error _ => create_feed_items_dyn feed_obj rest w

/-- Python truthiness of the 2-tuple returned by fetch_feed_content: a
tuple is truthy iff non-empty, and this one always has two elements. -/
def pyTupleLen (_t : PyVal × PyVal) : Nat := 2

/-- Truthiness test `if items:` in FeedViewSet.create (views.py line 25),
where items is the whole unpacked-less 2-tuple. -/
def pyTupleTruthy (t : PyVal × PyVal) : Bool :=
  pyTupleLen t != 0

/-- Iterating a Python 2-tuple yields its two components in order. -/
def pyTupleElems (t : PyVal × PyVal) : List PyVal := [t.1, t.2]

/-- FeedViewSet.create (views.py lines 18-29), starting after
serializer.save() has inserted the new feed row: the initial fetch is
invoked with feed.url (a str) instead of the Feed instance, the returned
pair is tested for truthiness, create_feed_items iterates the pair, and
mark_as_fetched (models.py lines 20-22) stamps last_fetched with now. -/
def FeedViewSet_create (env : Env) (feed : FeedRec) (w : World) :
    FeedRec × World :=
  let w0 : World := { w with feeds := w.feeds ++ [feed] }
  let iw := fetch_feed_content_dyn env (PyVal.str feed.url) w0
  if pyTupleTruthy iw.1 then
    let cw := create_feed_items_dyn feed (pyTupleElems iw.1) iw.2
    let f1 := { feed with lastFetched := some env.now }
    (f1, saveFeed f1 cw.2)
  else (feed, iw.2)

/-! ### Concrete instances used by witnesses and counterexamples -/

/-- A remote document with one clean, dated, identified entry. -/
def doc1 : ParsedDoc :=
  { bozo := false, topTitle := some "T",
    entries := [{ id := some "a", title := some "Hello",
                  summary := some "Hi", published := some "2024" }] }

/-- Environment serving doc1 at every URL; the date string 2024 parses to
timestamp 100; the clock reads 999. -/
def env1 : Env :=
  { fetch := fun _ => FetchOutcome.ok doc1,
    parseDate := fun s => if s == "2024" then some 100 else none,
    now := 999,
    urlparse := fun _ => { scheme := "https", netloc := "example.com" } }

/-- The feed under test. -/
def feed1 : FeedRec := { id := 7, url := "https://example.com/rss" }

/-- A malformed-but-usable document: bozo is set, yet a title and an entry
are present. -/
def doc2 : ParsedDoc :=
  { bozo := true, bozoException := "boom", topTitle := some "T",
    entries := [{ id := some "a", title := some "Hello" }] }

/-- Environment serving the malformed document doc2. -/
def env2 : Env :=
  { fetch := fun _ => FetchOutcome.ok doc2,
    parseDate := fun _ => none,
    now := 1,
    urlparse := fun _ => { scheme := "http", netloc := "example.com" } }

/-- The feed pointing at the malformed document. -/
def feed2 : FeedRec := { id := 2, url := "http://example.com/rss" }

/-- An entry with structured content, summary and description all present. -/
def e3 : RawEntry :=
  { summary := some "S", description := some "D", content := some ["C"] }

/-- An entry with description and structured content but no summary. -/
def e3b : RawEntry := { description := some "D", content := some ["C"] }

/-- An entry with only structured content. -/
def e3c : RawEntry := { content := some ["C"] }

/-- An entry with none of the three content fields. -/
def e3d : RawEntry := {}

/-- Environment where only the string good parses (to 55); clock 777. -/
def env4 : Env :=
  { fetch := fun _ => FetchOutcome.otherError "x",
    parseDate := fun s => if s == "good" then some 55 else none,
    now := 777,
    urlparse := fun _ => { scheme := "", netloc := "" } }

/-- An entry whose published string is unparseable while updated parses. -/
def e4 : RawEntry := { published := some "bad", updated := some "good" }

/-- The scenario document of the spec, verbatim: two entries sharing guid
a, the first titled Hello with summary Hi, the second titled Hello again —
and no date field on either. -/
def doc5 : ParsedDoc :=
  { bozo := false,
    entries := [{ id := some "a", title := some "Hello", summary := some "Hi" },
                { id := some "a", title := some "Hello again" }] }

/-- The scenario document with a parseable published date added to both
duplicate entries. -/
def doc5d : ParsedDoc :=
  { bozo := false,
    entries := [{ id := some "a", title := some "Hello",
                  summary := some "Hi", published := some "2024" },
                { id := some "a", title := some "Hello again",
                  published := some "2024" }] }

/-- Environment serving the verbatim scenario document. -/
def env5 : Env :=
  { fetch := fun _ => FetchOutcome.ok doc5,
    parseDate := fun s => if s == "2024" then some 100 else none,
    now := 999,
    urlparse := fun _ => { scheme := "https", netloc := "example.com" } }

/-- Environment serving the dated scenario document. -/
def env5d : Env := { env5 with fetch := fun _ => FetchOutcome.ok doc5d }

/-- The feed of the scenario. -/
def feed5 : FeedRec := { id := 5, url := "https://example.com/rss" }

/-- An entry with an id and a link. -/
def e6a : RawEntry := { id := some "idA", link := some "lnk" }

/-- An entry with only a link. -/
def e6b : RawEntry := { link := some "linkB" }

/-- An entry with no identifier at all. -/
def e6c : RawEntry := {}

/-- A minimal environment for the guid-precedence witness. -/
def env6 : Env :=
  { fetch := fun _ => FetchOutcome.otherError "x",
    parseDate := fun _ => none,
    now := 0,
    urlparse := fun _ => { scheme := "", netloc := "" } }

/-- A feed for the guid-precedence witness. -/
def feed6 : FeedRec := { id := 6, url := "u6" }

/-- A feed owning one persisted item with guid dup. -/
def feed7 : FeedRec := { id := 1, url := "u7" }

/-- A store already holding (feed 1, guid dup). -/
def w7 : World :=
  { items := [{ feedId := 1, title := "T", content := "",
                publishedAt := 5, guid := "dup" }] }

/-- A staged item whose insert violates the (feed, guid) constraint. -/
def it7 : StagedItem :=
  { title := "X", content := "", publishedAt := some 6, guid := "dup" }

/-- A staged item whose insert succeeds. -/
def it7b : StagedItem :=
  { title := "Y", content := "", publishedAt := some 7, guid := "fresh" }

/-! ### Supporting lemmas -/

theorem saveFeed_items (f : FeedRec) (w : World) :
    (saveFeed f w).items = w.items := rfl

theorem updateFeedTitle_items (doc : ParsedDoc) (f : FeedRec) (w : World) :
    ((updateFeedTitle doc f w).2).items = w.items := by
  unfold updateFeedTitle
  repeat' split
  all_goals rfl

theorem updateFeedTitle_id (doc : ParsedDoc) (f : FeedRec) (w : World) :
    (updateFeedTitle doc f w).1.id = f.id := by
  unfold updateFeedTitle
  repeat' split
  all_goals rfl

theorem updateFeedTitle_url (doc : ParsedDoc) (f : FeedRec) (w : World) :
    (updateFeedTitle doc f w).1.url = f.url := by
  unfold updateFeedTitle
  repeat' split
  all_goals rfl

theorem updateFeedTitle_title_noop (doc : ParsedDoc) (f : FeedRec) (w : World)
    (g : FeedRec) (w2 : World)
    (hg : g.title = (updateFeedTitle doc f w).1.title) :
    updateFeedTitle doc g w2 = (g, w2) := by
  by_cases hgf : pyStrFalsy g.title = true
  · cases h2 : extract_feed_title doc with
    | none =>
      unfold updateFeedTitle
      rw [if_pos hgf, h2]
    | some t =>
      have ht : (t == "") = true := by
        by_cases h3 : (t == "") = true
        · exact h3
        · exfalso
          by_cases h1 : pyStrFalsy f.title = true
          · have hres : (updateFeedTitle doc f w).1.title = some t := by
              unfold updateFeedTitle
              simp [h1, h2, h3]
            rw [hres] at hg
            rw [hg] at hgf
            simp [pyStrFalsy, h3] at hgf
          · have hres : (updateFeedTitle doc f w).1.title = f.title := by
              unfold updateFeedTitle
              simp [h1]
            rw [hres] at hg
            rw [hg] at hgf
            exact h1 hgf
      unfold updateFeedTitle
      rw [if_pos hgf, h2]
      simp [ht]
  · unfold updateFeedTitle
    rw [if_neg hgf]

theorem feedItemExists_congr (w1 w2 : World) (fid : Nat) (g : String)
    (h : w1.items = w2.items) :
    feedItemExists w1 fid g = feedItemExists w2 fid g := by
  unfold feedItemExists
  rw [h]

theorem feedItemExists_append (w w2 : World) (extra : List ItemRec)
    (fid : Nat) (g : String)
    (h : feedItemExists w fid g = true) (hw : w2.items = w.items ++ extra) :
    feedItemExists w2 fid g = true := by
  unfold feedItemExists at h ⊢
  rw [hw, List.any_append, h, Bool.true_or]

theorem create_ok_items (f : FeedRec) (it : StagedItem) (w w1 : World)
    (h : FeedItem_objects_create f it w = Except.ok w1) :
    ∃ d, it.publishedAt = some d ∧
      w1.items = w.items ++
        [{ feedId := f.id, title := it.title, content := it.content,
           publishedAt := d, guid := it.guid, isRead := false }] ∧
      w1.feeds = w.feeds ∧
      feedItemExists w f.id it.guid = false := by
  unfold FeedItem_objects_create at h
  split at h
  · exact absurd h (by simp)
  · rename_i hex
    cases hp : it.publishedAt with
    | none => rw [hp] at h; exact absurd h (by simp)
    | some d =>
      rw [hp] at h
      injection h with h
      exact ⟨d, rfl, by rw [← h], by rw [← h], by simpa using hex⟩

theorem create_error_cases (f : FeedRec) (it : StagedItem) (w : World)
    (msg : String)
    (h : FeedItem_objects_create f it w = Except.error msg) :
    feedItemExists w f.id it.guid = true ∨ it.publishedAt = none := by
  unfold FeedItem_objects_create at h
  split at h
  · rename_i hex; exact Or.inl hex
  · cases hp : it.publishedAt with
    | none => exact Or.inr rfl
    | some d => rw [hp] at h; exact absurd h (by simp)

theorem create_feed_items_append (f : FeedRec) :
    ∀ (items : List StagedItem) (w : World),
      ∃ extra : List ItemRec,
        ((create_feed_items f items w).2).items = w.items ++ extra ∧
        (create_feed_items f items w).1 = extra.length := by
  intro items
  induction items with
  | nil =>
    intro w
    exact ⟨[], by simp [create_feed_items]⟩
  | cons it rest ih =>
    intro w
    unfold create_feed_items
    cases hc : FeedItem_objects_create f it w with
    | error e => exact ih w
    | ok w1 =>
      obtain ⟨d, _, hw1, _, _⟩ := create_ok_items f it w w1 hc
      obtain ⟨extra, h1, h2⟩ := ih w1
      refine ⟨{ feedId := f.id, title := it.title, content := it.content,
                publishedAt := d, guid := it.guid, isRead := false } :: extra, ?_, ?_⟩
      · show ((create_feed_items f rest w1).2).items = w.items ++ _
        rw [h1, hw1, List.append_assoc]
        rfl
      · show (create_feed_items f rest w1).1 + 1 = _
        rw [h2, List.length_cons]

theorem create_feed_items_covers (f : FeedRec) :
    ∀ (items : List StagedItem) (w : World),
      (∀ it ∈ items, it.publishedAt ≠ none) →
      ∀ it ∈ items,
        feedItemExists ((create_feed_items f items w).2) f.id it.guid = true := by
  intro items
  induction items with
  | nil => intro w _ it hit; cases hit
  | cons it0 rest ih =>
    intro w hd it hit
    unfold create_feed_items
    cases hc : FeedItem_objects_create f it0 w with
    | error e =>
      rcases List.mem_cons.mp hit with h | h
      · subst h
        rcases create_error_cases f it w e hc with hex | hp
        · obtain ⟨extra, ha, _⟩ := create_feed_items_append f rest w
          exact feedItemExists_append w _ extra f.id it.guid hex ha
        · exact absurd hp (hd it (List.mem_cons_self _ _))
      · exact ih w (fun x hx => hd x (List.mem_cons_of_mem _ hx)) it h
    | ok w1 =>
      rcases List.mem_cons.mp hit with h | h
      · subst h
        obtain ⟨d, hp, hw1, _, _⟩ := create_ok_items f it w w1 hc
        have hx : feedItemExists w1 f.id it.guid = true := by
          unfold feedItemExists
          rw [hw1, List.any_append]
          simp
        obtain ⟨extra, ha, _⟩ := create_feed_items_append f rest w1
        exact feedItemExists_append w1 _ extra f.id it.guid hx ha
      · exact ih w1 (fun x hx => hd x (List.mem_cons_of_mem _ hx)) it h

theorem hasDateStr_published_at (env : Env) (e : RawEntry)
    (h : hasDateStr e = true) : entry_published_at env e ≠ none := by
  unfold hasDateStr at h
  unfold entry_published_at parse_date
  cases hdf : entryDateField e with
  | none => rw [hdf] at h; cases h
  | some s =>
    rw [hdf] at h
    have hs : (s == "") = false := by simpa using h
    cases hp : env.parseDate s <;> simp [hs, hp]

theorem stageEntries_dates (env : Env) (f : FeedRec) (w : World) :
    ∀ es : List RawEntry, (∀ e ∈ es, hasDateStr e = true) →
      ∀ it ∈ stageEntries env f w es, it.publishedAt ≠ none := by
  intro es
  induction es with
  | nil =>
    intro _ it hit
    simp [stageEntries] at hit
  | cons e rest ih =>
    intro hd it hit
    have hrest := ih (fun x hx => hd x (List.mem_cons_of_mem _ hx))
    simp only [stageEntries] at hit
    split at hit
    · exact hrest it hit
    · split at hit
      · exact hrest it hit
      · rcases List.mem_cons.mp hit with h | h
        · subst h
          exact hasDateStr_published_at env e (hd e (List.mem_cons_self _ _))
        · exact hrest it h

theorem stageEntries_mem_guid (env : Env) (f : FeedRec) (w : World) :
    ∀ es : List RawEntry, ∀ e ∈ es,
      extract_entry_guid e ≠ "" →
      feedItemExists w f.id (extract_entry_guid e) = false →
      ∃ it, it ∈ stageEntries env f w es ∧ it.guid = extract_entry_guid e := by
  intro es
  induction es with
  | nil => intro e he; cases he
  | cons e0 rest ih =>
    intro e he hg hex
    rcases List.mem_cons.mp he with h | h
    · subst h
      simp only [stageEntries]
      rw [if_neg (by simp [hg]), if_neg (by simp [hex])]
      exact ⟨_, List.mem_cons_self _ _, rfl⟩
    · obtain ⟨it, hit, hgeq⟩ := ih e h hg hex
      simp only [stageEntries]
      split
      · exact ⟨it, hit, hgeq⟩
      · split
        · exact ⟨it, hit, hgeq⟩
        · exact ⟨it, List.mem_cons_of_mem _ hit, hgeq⟩

theorem stageEntries_nil_of_all (env : Env) (f : FeedRec) (w : World) :
    ∀ es : List RawEntry,
      (∀ e ∈ es, extract_entry_guid e = "" ∨
        feedItemExists w f.id (extract_entry_guid e) = true) →
      stageEntries env f w es = [] := by
  intro es
  induction es with
  | nil => intro _; rfl
  | cons e rest ih =>
    intro h
    have hrest := ih (fun x hx => h x (List.mem_cons_of_mem _ hx))
    simp only [stageEntries]
    rcases h e (List.mem_cons_self _ _) with hg | hex
    · rw [if_pos (by simp [hg])]
      exact hrest
    · by_cases hg : (extract_entry_guid e == "") = true
      · rw [if_pos hg]
        exact hrest
      · rw [if_neg hg, if_pos hex]
        exact hrest

theorem fetch_items_unchanged (env : Env) (f : FeedRec) (w : World) :
    ((fetch_feed_content env f w).2.2).items = w.items := by
  unfold fetch_feed_content
  cases env.fetch f.url with
  | ok doc =>
    dsimp only
    by_cases hb : doc.bozo = true
    · rw [if_pos hb]
    · rw [if_neg hb]
      split
      · exact updateFeedTitle_items doc f w
      · exact updateFeedTitle_items doc f w
  | httpError m => rfl
  | redirectError m => rfl
  | otherError m => rfl

theorem create_feed_items_nodup (f : FeedRec) :
    ∀ (items : List StagedItem) (w : World),
      (w.items.map (fun r => (r.feedId, r.guid))).Nodup →
      (((create_feed_items f items w).2).items.map
        (fun r => (r.feedId, r.guid))).Nodup := by
  intro items
  induction items with
  | nil => intro w h; exact h
  | cons it rest ih =>
    intro w h
    unfold create_feed_items
    cases hc : FeedItem_objects_create f it w with
    | error e => exact ih w h
    | ok w1 =>
      refine ih w1 ?_
      obtain ⟨d, hp, hw1, _, hex⟩ := create_ok_items f it w w1 hc
      rw [hw1, List.map_append]
      refine List.Nodup.append h (List.nodup_singleton _) ?_
      intro x hx hx2
      have hxe : x = (f.id, it.guid) := by simpa using hx2
      subst hxe
      obtain ⟨r, hr, hreq⟩ := List.mem_map.mp hx
      have h1 : r.feedId = f.id := congrArg Prod.fst hreq
      have h2 : r.guid = it.guid := congrArg Prod.snd hreq
      have hany : w.items.any (fun r => r.feedId == f.id && r.guid == it.guid) = true :=
        List.any_eq_true.mpr ⟨r, hr, by simp [h1, h2]⟩
      unfold feedItemExists at hex
      rw [hany] at hex
      cases hex

theorem sync_key_nodup (env : Env) (feed : FeedRec) (w : World)
    (h : (w.items.map (fun r => (r.feedId, r.guid))).Nodup) :
    (((sync env feed w).2.2).items.map (fun r => (r.feedId, r.guid))).Nodup := by
  unfold sync
  dsimp only
  cases hr : (fetch_feed_content env feed w).1.2 with
  | some e =>
    dsimp only
    rw [fetch_items_unchanged]
    exact h
  | none =>
    dsimp only
    split
    · rw [fetch_items_unchanged]
      exact h
    · rw [saveFeed_items]
      refine create_feed_items_nodup _ _ _ ?_
      rw [fetch_items_unchanged]
      exact h

/-! ### Claim theorems -/

/-- Claim C3, counterexample: an entry with structured content, summary
and description all present extracts the summary, not the first structured
content value as the claim states. -/
theorem content_precedence_cex :
    e3.content = some ["C"] ∧ e3.summary = some "S" ∧ e3.description = some "D" ∧
    extract_content e3 = "S" ∧ extract_content e3 ≠ "C" := by
  refine ⟨rfl, rfl, rfl, rfl, ?_⟩
  decide

/-- Claim C3, amended: the code checks the summary first, then the
description, and only when both are missing (or the consulted one is
empty) does it fall back to the first structured content value; an entry
with none of the three fields extracts the empty string; an entry with
only a summary extracts the summary. -/
theorem content_precedence_actual :
    (∀ (e : RawEntry) (s : String), e.summary = some s → s ≠ "" →
        extract_content e = s)
    ∧ (∀ (e : RawEntry) (d : String), e.summary = none → e.description = some d →
        d ≠ "" → extract_content e = d)
    ∧ (∀ (e : RawEntry) (v : String) (vs : List String), e.summary = none →
        e.description = none → e.content = some (v :: vs) → extract_content e = v)
    ∧ (∀ (e : RawEntry), e.summary = none → e.description = none →
        e.content = none → extract_content e = "") := by
  refine ⟨?_, ?_, ?_, ?_⟩
  · intro e s hs hne
    unfold extract_content
    simp [hs, hne]
  · intro e d h1 h2 hne
    unfold extract_content
    simp [h1, h2, hne]
  · intro e v vs h1 h2 h3
    unfold extract_content
    simp [h1, h2, h3]
  · intro e h1 h2 h3
    unfold extract_content
    simp [h1, h2, h3]

/-- Claim C3, witness for the amended statement at concrete entries. -/
theorem content_precedence_actual_witness :
    extract_content e3 = "S" ∧ extract_content e3b = "D" ∧
    extract_content e3c = "C" ∧ extract_content e3d = "" :=
  ⟨content_precedence_actual.1 e3 "S" rfl (by decide),
   content_precedence_actual.2.1 e3b "D" rfl rfl (by decide),
   content_precedence_actual.2.2.1 e3c "C" [] rfl rfl rfl,
   content_precedence_actual.2.2.2 e3d rfl rfl rfl⟩

/-- Claim C4, counterexample: an entry whose published string is present
but unparseable while updated parses does not fall back to the parsed
updated value — the code substitutes the current time instead; and an
entry with no date field at all yields None, not the current time. -/
theorem published_at_fallback_cex :
    e4.published = some "bad" ∧ env4.parseDate "bad" = none ∧
    e4.updated = some "good" ∧ env4.parseDate "good" = some 55 ∧
    entry_published_at env4 e4 ≠ some 55 ∧
    entry_published_at env4 e4 = some 777 ∧
    entry_published_at env4 e3d = none := by
  refine ⟨rfl, by decide, rfl, by decide, by decide, by decide, rfl⟩

/-- Claim C4, amended: the updated field is consulted only when the
published key is absent; a present nonempty published string that fails
to parse falls back to the current time (updated is ignored); with both
fields absent the extracted published_at is None; extraction is a total
function and never raises. -/
theorem published_at_fallback_actual :
    (∀ (env : Env) (e : RawEntry) (s : String), e.published = some s → s ≠ "" →
        env.parseDate s = none → entry_published_at env e = some env.now)
    ∧ (∀ (env : Env) (e : RawEntry), e.published = none → e.updated = none →
        entry_published_at env e = none)
    ∧ (∀ (env : Env) (e : RawEntry) (s : String) (d : Nat), e.published = none →
        e.updated = some s → s ≠ "" → env.parseDate s = some d →
        entry_published_at env e = some d) := by
  refine ⟨?_, ?_, ?_⟩
  · intro env e s hp hne hparse
    unfold entry_published_at entryDateField parse_date
    simp [hp, hne, hparse]
  · intro env e hp hu
    unfold entry_published_at entryDateField parse_date
    simp [hp, hu]
  · intro env e s d hp hu hne hparse
    unfold entry_published_at entryDateField parse_date
    simp [hp, hu, hne, hparse]

/-- Claim C4, witness for the amended statement at concrete inputs. -/
theorem published_at_fallback_actual_witness :
    entry_published_at env4 e4 = some 777 ∧
    entry_published_at env4 e3d = none ∧
    entry_published_at env4 e6b = none ∧
    entry_published_at env4 { updated := some "good" } = some 55 :=
  ⟨published_at_fallback_actual.1 env4 e4 "bad" rfl (by decide) (by decide),
   published_at_fallback_actual.2.1 env4 e3d rfl rfl,
   published_at_fallback_actual.2.1 env4 e6b rfl rfl,
   published_at_fallback_actual.2.2 env4 { updated := some "good" } "good" 55
     rfl rfl (by decide) (by decide)⟩

/-- Claim C6: guid precedence — an entry with an id (and a link) extracts
the id; an entry with only a link extracts the link; an entry with
neither id, guid, nor link extracts the absent (empty) guid and the
staging loop of sync skips it, creating no item for it. -/
theorem guid_precedence :
    (∀ (e : RawEntry) (g l : String), e.id = some g → e.link = some l →
        extract_entry_guid e = g)
    ∧ (∀ (e : RawEntry) (l : String), e.id = none → e.guid = none →
        e.link = some l → extract_entry_guid e = l)
    ∧ (∀ (e : RawEntry), e.id = none → e.guid = none → e.link = none →
        extract_entry_guid e = "" ∧
        ∀ (env : Env) (f : FeedRec) (w : World) (rest : List RawEntry),
          stageEntries env f w (e :: rest) = stageEntries env f w rest) := by
  refine ⟨?_, ?_, ?_⟩
  · intro e g l hg _
    unfold extract_entry_guid
    rw [hg]
  · intro e l h1 h2 h3
    unfold extract_entry_guid
    rw [h1, h2, h3]
    rfl
  · intro e h1 h2 h3
    have hg : extract_entry_guid e = "" := by
      unfold extract_entry_guid
      rw [h1, h2, h3]
      rfl
    refine ⟨hg, ?_⟩
    intro env f w rest
    simp only [stageEntries]
    rw [if_pos (by simp [hg])]

/-- Claim C6, witness at concrete entries. -/
theorem guid_precedence_witness :
    extract_entry_guid e6a = "idA" ∧ extract_entry_guid e6b = "linkB" ∧
    stageEntries env6 feed6 {} [e6c] = stageEntries env6 feed6 {} [] :=
  ⟨guid_precedence.1 e6a "idA" "lnk" rfl rfl,
   guid_precedence.2.1 e6b "linkB" rfl rfl rfl,
   (guid_precedence.2.2 e6c rfl rfl rfl).2 env6 feed6 {} []⟩

/-- Claim C7: per-item persist isolation — a failing insert (for example a
(feed, guid) uniqueness violation) is caught and skipped, the remaining
staged items are processed exactly as if the failing one were absent, and
the returned count always equals the number of rows actually added to the
item table. -/
theorem create_items_isolation :
    (∀ (f : FeedRec) (it : StagedItem) (rest : List StagedItem) (w : World)
        (msg : String),
        FeedItem_objects_create f it w = Except.error msg →
        create_feed_items f (it :: rest) w = create_feed_items f rest w)
    ∧ (∀ (f : FeedRec) (items : List StagedItem) (w : World),
        ((create_feed_items f items w).2).items.length
          = w.items.length + (create_feed_items f items w).1) := by
  constructor
  · intro f it rest w msg h
    have hstep : create_feed_items f (it :: rest) w
        = match FeedItem_objects_create f it w with
          | Except.ok w1 =>
            ((create_feed_items f rest w1).1 + 1, (create_feed_items f rest w1).2)
          | Except.error _ => create_feed_items f rest w := rfl
    rw [hstep, h]
  · intro f items w
    obtain ⟨extra, h1, h2⟩ := create_feed_items_append f items w
    rw [h1, h2, List.length_append]

/-- Claim C7, witness: a staged batch whose first insert violates the
(feed, guid) constraint still creates the second item and reports count 1. -/
theorem create_items_isolation_witness :
    create_feed_items feed7 [it7, it7b] w7 = create_feed_items feed7 [it7b] w7 ∧
    ((create_feed_items feed7 [it7, it7b] w7).2).items.length
      = w7.items.length + (create_feed_items feed7 [it7, it7b] w7).1 :=
  ⟨create_items_isolation.1 feed7 it7 [it7b] w7
      "IntegrityError: UNIQUE constraint failed: feed, guid" rfl,
   create_items_isolation.2 feed7 [it7, it7b] w7⟩

/-- Claim C8: validate_feed_url is a pure check — the persisted state (the
Feed table and the FeedItem table) is returned unchanged on every path,
whether validation succeeds or fails. -/
theorem validate_feed_url_pure (env : Env) (url : String) (w : World) :
    (validate_feed_url env url w).2 = w := by
  unfold validate_feed_url
  dsimp only
  repeat' split
  all_goals rfl

/-- Claim C9: FeedSerializer.validate_url stores the whole (bool, reason)
tuple and tests the tuple itself for truthiness; a 2-tuple is always
truthy, so the serializer accepts every URL and never raises — URL
validation at the serializer level is a no-op. -/
theorem serializer_validate_url_noop (env : Env) (value : String) (w : World) :
    FeedSerializer_validate_url env value w = Except.ok value := rfl

/-- Claim C10: FeedViewSet.create passes feed.url (a str) to
fetch_feed_content, whose first attribute access fails and is swallowed
into the pair ([], message); the pair is truthy, so create_feed_items
iterates it and creates nothing; hence the initial fetch on creation adds
zero FeedItems and the new feed is always marked as fetched. -/
theorem viewset_create_zero_items (env : Env) (feed : FeedRec) (w : World) :
    ((FeedViewSet_create env feed w).2).items = w.items ∧
    (FeedViewSet_create env feed w).1.lastFetched = some env.now := by
  constructor <;> rfl

/-- Claim C2, counterexample: a parse flagged malformed (bozo) that still
yields a feed title and one entry is rejected by validate — it does not
return (true, none) as the claim states. -/
theorem tolerant_parse_cex :
    doc2.bozo = true ∧ doc2.topTitle = some "T" ∧ doc2.entries.length = 1 ∧
    (validate_feed_url env2 "http://example.com/rss" {}).1 ≠ (true, none) := by
  refine ⟨rfl, rfl, rfl, ?_⟩
  decide

/-- Claim C2, amended: a parse flagged malformed is always treated as
invalid, even when it yields a title or entries — validate returns
(false, parse-error reason), and sync on such a feed returns (0, the same
parse error) without touching the store; only bozo-free parses reach the
tolerated path. -/
theorem bozo_always_rejected (env : Env) (url : String) (w : World) (doc : ParsedDoc)
    (hs : (env.urlparse url).scheme = "http" ∨ (env.urlparse url).scheme = "https")
    (hn : (env.urlparse url).netloc ≠ "")
    (hf : env.fetch url = FetchOutcome.ok doc)
    (hb : doc.bozo = true) :
    (validate_feed_url env url w).1
      = (false, some ("Feed parsing error: " ++ doc.bozoException)) ∧
    ∀ (feed : FeedRec) (w2 : World), feed.url = url →
      sync env feed w2
        = ((0, some ("Feed parsing error: " ++ doc.bozoException)), feed, w2) := by
  constructor
  · unfold validate_feed_url
    dsimp only
    rw [if_neg (by rcases hs with h | h <;> simp [h, VALID_SCHEMES]),
        if_neg (by simp [hn]), hf]
    dsimp only
    rw [if_pos hb]
  · intro feed w2 hu
    have hfetch : fetch_feed_content env feed w2
        = (([], some ("Feed parsing error: " ++ doc.bozoException)), feed, w2) := by
      unfold fetch_feed_content
      rw [hu, hf]
      dsimp only
      rw [if_pos hb]
    unfold sync
    dsimp only
    rw [hfetch]

/-- Claim C2, witness for the amended statement: the malformed document
doc2 is rejected by validate and by sync at a concrete URL and feed. -/
theorem bozo_always_rejected_witness :
    (validate_feed_url env2 "http://example.com/rss" {}).1
      = (false, some ("Feed parsing error: " ++ doc2.bozoException)) ∧
    sync env2 feed2 {}
      = ((0, some ("Feed parsing error: " ++ doc2.bozoException)), feed2, {}) := by
  obtain ⟨h1, h2⟩ := bozo_always_rejected env2 "http://example.com/rss" {} doc2
    (Or.inl rfl) (by decide) rfl rfl
  exact ⟨h1, h2 feed2 {} rfl⟩

/-- Claim C5, counterexample: with the scenario entries exactly as given
(no date field on either), sync persists no item with guid a at all — not
one item titled Hello — because extraction stages published_at None and
both inserts then violate the NOT NULL constraint. -/
theorem duplicate_guid_scenario_cex :
    (((sync env5 feed5 {}).2.2).items.filter (fun r => r.guid == "a")).length = 0 ∧
    (0 : Nat) ≠ 1 :=
  ⟨rfl, by decide⟩

/-- Claim C5, amended: the scenario entries as literally given stage no
usable published_at, so both inserts fail the NOT NULL constraint and no
item with guid a is persisted; when the duplicate entries carry a
parseable date, exactly one item with guid a is persisted, titled Hello
(the first wins, via the store uniqueness constraint catching the second
insert); and the (feed, guid) uniqueness invariant does hold after every
sync. -/
theorem duplicate_guid_actual :
    (((sync env5 feed5 {}).2.2).items.filter (fun r => r.guid == "a")) = [] ∧
    (sync env5d feed5 {}).1 = (1, none) ∧
    (((sync env5d feed5 {}).2.2).items.map (fun r => (r.guid, r.title)))
      = [("a", "Hello")] ∧
    (∀ (env : Env) (feed : FeedRec) (w : World),
      (w.items.map (fun r => (r.feedId, r.guid))).Nodup →
      (((sync env feed w).2.2).items.map (fun r => (r.feedId, r.guid))).Nodup) := by
  refine ⟨rfl, rfl, rfl, ?_⟩
  intro env feed w h
  exact sync_key_nodup env feed w h

/-- Claim C5, witness: the uniqueness invariant applied to the dated
scenario run from the empty store. -/
theorem duplicate_guid_actual_witness :
    ((((sync env5d feed5 {}).2.2).items.map (fun r => (r.feedId, r.guid))).Nodup) :=
  duplicate_guid_actual.2.2.2 env5d feed5 {} (by decide)

/-- Claim C1, counterexample: against a fixed remote entry set with one
fresh dated entry, the first sync yields (1, none) but the second does not
yield (0, none) — the code reports the zero-new-items outcome with an
error set. -/
theorem sync_twice_error_cex :
    (sync env1 feed1 {}).1 = (1, none) ∧
    (sync env1 (sync env1 feed1 {}).2.1 (sync env1 feed1 {}).2.2).1
      ≠ ((0 : Nat), (none : Option String)) := by
  refine ⟨rfl, ?_⟩
  decide

/-- Claim C1, amended: against a fixed remote entry set (clean parse, all
entries carrying nonempty date strings), a first sync that reports no
error persists exactly its reported count of new rows, and the second
sync in sequence returns count 0 with the error string
"No new items found in feed" and leaves the store untouched — so zero new
items is reported through the same error channel as a transport/parse
failure, not with no error as the claim states. -/
theorem sync_twice_dedup (env : Env) (feed : FeedRec) (w : World) (doc : ParsedDoc)
    (hf : env.fetch feed.url = FetchOutcome.ok doc)
    (hb : doc.bozo = false)
    (hd : ∀ e ∈ doc.entries, hasDateStr e = true)
    (h1 : (sync env feed w).1.2 = none) :
    ((sync env feed w).2.2).items.length = w.items.length + (sync env feed w).1.1 ∧
    sync env (sync env feed w).2.1 (sync env feed w).2.2
      = ((0, some "No new items found in feed"),
         (sync env feed w).2.1, (sync env feed w).2.2) := by
  cases hse : stageEntries env (updateFeedTitle doc feed w).1
      (updateFeedTitle doc feed w).2 doc.entries with
  | nil =>
    exfalso
    have hfetch : fetch_feed_content env feed w
        = (([], some "No new items found in feed"),
           (updateFeedTitle doc feed w).1, (updateFeedTitle doc feed w).2) := by
      unfold fetch_feed_content
      rw [hf]
      dsimp only
      rw [if_neg (by simp [hb])]
      rw [hse]
    have hs1 : (sync env feed w).1.2 = some "No new items found in feed" := by
      unfold sync
      dsimp only
      rw [hfetch]
    rw [hs1] at h1
    exact absurd h1 (by simp)
  | cons it its =>
    have hfetch : fetch_feed_content env feed w
        = ((it :: its, none),
           (updateFeedTitle doc feed w).1, (updateFeedTitle doc feed w).2) := by
      unfold fetch_feed_content
      rw [hf]
      dsimp only
      rw [if_neg (by simp [hb])]
      rw [hse]
    have hs1 : sync env feed w
        = (((create_feed_items (updateFeedTitle doc feed w).1 (it :: its)
              (updateFeedTitle doc feed w).2).1, none),
           { (updateFeedTitle doc feed w).1 with lastFetched := some env.now },
           saveFeed { (updateFeedTitle doc feed w).1 with lastFetched := some env.now }
             (create_feed_items (updateFeedTitle doc feed w).1 (it :: its)
               (updateFeedTitle doc feed w).2).2) := by
      unfold sync
      dsimp only
      rw [hfetch]
    obtain ⟨extra, he1, he2⟩ := create_feed_items_append
      (updateFeedTitle doc feed w).1 (it :: its) (updateFeedTitle doc feed w).2
    have hdates : ∀ st ∈ (it :: its : List StagedItem), st.publishedAt ≠ none := by
      intro st hst
      refine stageEntries_dates env (updateFeedTitle doc feed w).1
        (updateFeedTitle doc feed w).2 doc.entries hd st ?_
      rw [hse]
      exact hst
    have hstage2 : ∀ (g : FeedRec) (w2 : World),
        g.id = (updateFeedTitle doc feed w).1.id →
        w2.items = (create_feed_items (updateFeedTitle doc feed w).1 (it :: its)
            (updateFeedTitle doc feed w).2).2.items →
        stageEntries env g w2 doc.entries = [] := by
      intro g w2 hgid hw2
      apply stageEntries_nil_of_all
      intro e he
      by_cases hg : extract_entry_guid e = ""
      · exact Or.inl hg
      · right
        rw [hgid, feedItemExists_congr _ _ _ _ hw2]
        by_cases hex : feedItemExists (updateFeedTitle doc feed w).2
            (updateFeedTitle doc feed w).1.id (extract_entry_guid e) = true
        · exact feedItemExists_append _ _ extra _ _ hex he1
        · have hexf : feedItemExists (updateFeedTitle doc feed w).2
              (updateFeedTitle doc feed w).1.id (extract_entry_guid e) = false := by
            cases hx : feedItemExists (updateFeedTitle doc feed w).2
                (updateFeedTitle doc feed w).1.id (extract_entry_guid e)
            · rfl
            · exact absurd hx hex
          obtain ⟨st, hst, hstg⟩ := stageEntries_mem_guid env
            (updateFeedTitle doc feed w).1 (updateFeedTitle doc feed w).2
            doc.entries e he hg hexf
          rw [hse] at hst
          have hc := create_feed_items_covers (updateFeedTitle doc feed w).1
            (it :: its) (updateFeedTitle doc feed w).2 hdates st hst
          rw [hstg] at hc
          exact hc
    have hfetch2 : ∀ (g : FeedRec) (w2 : World),
        g.url = feed.url →
        g.title = (updateFeedTitle doc feed w).1.title →
        stageEntries env g w2 doc.entries = [] →
        fetch_feed_content env g w2
          = (([], some "No new items found in feed"), g, w2) := by
      intro g w2 hgu hgt hgs
      unfold fetch_feed_content
      rw [hgu, hf]
      dsimp only
      rw [if_neg (by simp [hb])]
      rw [updateFeedTitle_title_noop doc feed w g w2 hgt]
      dsimp only
      rw [hgs]
    constructor
    · rw [hs1]
      dsimp only
      rw [saveFeed_items, he1, updateFeedTitle_items, List.length_append, he2]
    · rw [hs1]
      dsimp only
      unfold sync
      dsimp only
      rw [hfetch2
          { id := (updateFeedTitle doc feed w).1.id,
            url := (updateFeedTitle doc feed w).1.url,
            title := (updateFeedTitle doc feed w).1.title,
            lastFetched := some env.now }
          (saveFeed
            { id := (updateFeedTitle doc feed w).1.id,
              url := (updateFeedTitle doc feed w).1.url,
              title := (updateFeedTitle doc feed w).1.title,
              lastFetched := some env.now }
            (create_feed_items (updateFeedTitle doc feed w).1 (it :: its)
              (updateFeedTitle doc feed w).2).2)
          (updateFeedTitle_url doc feed w) rfl
          (hstage2 _ _ rfl (saveFeed_items _ _))]

/-- Claim C1, witness for the amended statement at a concrete environment:
one fresh dated entry, first sync reported no error. -/
theorem sync_twice_dedup_witness :
    ((sync env1 feed1 {}).2.2).items.length
      = ({} : World).items.length + (sync env1 feed1 {}).1.1 ∧
    sync env1 (sync env1 feed1 {}).2.1 (sync env1 feed1 {}).2.2
      = ((0, some "No new items found in feed"),
         (sync env1 feed1 {}).2.1, (sync env1 feed1 {}).2.2) :=
  sync_twice_dedup env1 feed1 {} doc1 rfl rfl (by decide) rfl

end Minrss

